import Mathlib

/-!
Verification development for a small Flask voice-agent service (`app.py`).

The service exposes `POST /voice-agent`: it stages the uploaded audio in a
temporary file, transcribes it, feeds the transcript to a chat completion,
synthesizes the reply to speech in a second temporary file, and returns the
reply text together with the base64-encoded audio. Each of the three external
calls is wrapped in a tenacity retry decorator
`retry(wait=wait_random_exponential(min=1, max=60), stop=stop_after_attempt(6))`.

The embedding below models:
 - Python exceptions (`Exc`), including tenacity's `RetryError` wrapper that
   is raised when the attempt budget is exhausted (tenacity's default
   `reraise=False`), and Python's `str()` of those exceptions (`pyStr`).
   The memory address inside the `Future` repr is elided as it is not
   relevant to any property proved here.
 - The retry loop (`retryAttempts` / `retryCall`): up to 6 attempts, stop
   after the 6th, wrapping the last attempt's exception in `RetryError`.
 - tenacity's `wait_exponential` / `wait_random_exponential` values over ℚ,
   with the uniform draw `random.uniform(0, high)` modelled as `r * high`
   for a sample `r` with `0 ≤ r ≤ 1`.
 - A filesystem (`FS`) of temp-path/content pairs with a fresh-name counter,
   standing for `tempfile.NamedTemporaryFile(delete=False)` and `os.remove`.
 - Python's `base64.b64encode` on byte strings (`b64encode`), plus a decoder
   to state the round-trip property.
 - The request handler `voice_agent`, translated branch by branch from the
   source, instrumented with a trace of the external-service invocations
   (one `Event` per attempt, recording the arguments passed).

External services are oracles in `Env`: each maps the stage input and the
attempt number (1-based) to an exception or a result, so one run of the
handler is a pure function of the request, the oracles and the filesystem.
-/

/-- Python exception values as they matter to the handler: either a plain
exception carrying its class name and message, or a tenacity `RetryError`
wrapping the exception of the last attempt. -/
inductive Exc where
  | exc (cls : String) (msg : String)
  | retryError (last : Exc)
deriving DecidableEq, Repr

/-- The Python class name of an exception value. -/
def excClass : Exc → String
  | Exc.exc c _ => c
  | Exc.retryError _ => "RetryError"

/-- Python `str(e)`. For a plain exception this is its message; for a
tenacity `RetryError` it is `RetryError[<Future ...>]` where the future repr
names the state and the raised exception class (address elided). -/
def pyStr : Exc → String
  | Exc.exc _ m => m
  | Exc.retryError last =>
      "RetryError[<Future state=finished raised " ++ excClass last ++ ">]"

/-- One message of the chat-completion request, as built in
`generate_chat_response`. -/
structure ChatMessage where
  role : String
  content : String
deriving DecidableEq, Repr

/-- The transcription object returned by the speech-to-text service; the
handler only uses its `.text` field. -/
structure Transcription where
  text : String
deriving DecidableEq, Repr

/-- The `.message` component of a chat-completion choice. -/
structure ChoiceMessage where
  content : String
deriving DecidableEq, Repr

/-- One element of `chat_response.choices`. -/
structure ChatChoice where
  message : ChoiceMessage
deriving DecidableEq, Repr

/-- The chat-completion response object; the handler uses
`chat_response.choices[0].message.content`. -/
structure ChatCompletion where
  choices : List ChatChoice
deriving DecidableEq, Repr

/-- One external-service invocation recorded in the run trace: which stage,
the argument passed, and the 1-based attempt number. -/
inductive Event where
  | transcribeCall (audio : List Nat) (attempt : Nat)
  | chatCall (messages : List ChatMessage) (attempt : Nat)
  | speechCall (text : String) (attempt : Nat)
deriving DecidableEq, Repr

/-- The pipeline stage an event belongs to, in pipeline order. -/
def stageTag : Event → Nat
  | Event.transcribeCall _ _ => 0
  | Event.chatCall _ _ => 1
  | Event.speechCall _ _ => 2

/-- A trace is stage-ordered when the stages of its events never go
backwards (all transcription attempts precede all completion attempts,
which precede all synthesis attempts). -/
def stagesOrdered (tr : List Event) : Prop :=
  List.Pairwise (fun a b => stageTag a ≤ stageTag b) tr

/-- The external-service oracles: each stage maps its input and the 1-based
attempt number to the attempt's outcome. -/
structure Env where
  transcriptions : List Nat → Nat → Except Exc Transcription
  chat : List ChatMessage → Nat → Except Exc ChatCompletion
  speech : String → Nat → Except Exc (List Nat)

/-- The tenacity retry loop: attempt `k` with `fuel` attempts remaining.
On success the value is returned; on failure with no attempt left the last
exception is wrapped in `RetryError` (tenacity's default `reraise=False`
with `stop=stop_after_attempt`); otherwise the next attempt runs. One trace
event per attempt. -/
def retryAttempts (call : Nat → Except Exc α) (mk : Nat → Event) :
    Nat → Nat → Except Exc α × List Event
  | 0, _ => (Except.error (Exc.exc "RuntimeError" "no attempts configured"), [])
  | 1, k =>
      match call k with
      | Except.ok a => (Except.ok a, [mk k])
      | Except.error e => (Except.error (Exc.retryError e), [mk k])
  | fuel + 2, k =>
      match call k with
      | Except.ok a => (Except.ok a, [mk k])
      | Except.error _ =>
          let rest := retryAttempts call mk (fuel + 1) (k + 1)
          (rest.1, mk k :: rest.2)

/-- `@retry(..., stop=stop_after_attempt(cap))` applied to `call`, starting
at attempt 1. -/
def retryCall (cap : Nat) (mk : Nat → Event) (call : Nat → Except Exc α) :
    Except Exc α × List Event :=
  retryAttempts call mk cap 1

/-- tenacity `wait_exponential(multiplier, max, exp_base, min).__call__`:
`max(max(0, min), min(multiplier * exp_base ** (attempt_number - 1), max))`. -/
def wait_exponential_val (multiplier exp_base minW maxW : ℚ)
    (attempt_number : Nat) : ℚ :=
  max (max 0 minW) (min (multiplier * exp_base ^ (attempt_number - 1)) maxW)

/-- tenacity `wait_random_exponential.__call__`: `random.uniform(0, high)`
where `high` is the `wait_exponential` value; the uniform draw is modelled
as `r * high` for a sample `r ∈ [0, 1]`. -/
def wait_random_exponential_val (multiplier exp_base minW maxW : ℚ)
    (attempt_number : Nat) (r : ℚ) : ℚ :=
  r * wait_exponential_val multiplier exp_base minW maxW attempt_number

/-- The base64 alphabet, in value order. -/
def b64Alphabet : List Char :=
  ['A', 'B', 'C', 'D', 'E', 'F', 'G', 'H', 'I', 'J', 'K', 'L', 'M',
   'N', 'O', 'P', 'Q', 'R', 'S', 'T', 'U', 'V', 'W', 'X', 'Y', 'Z',
   'a', 'b', 'c', 'd', 'e', 'f', 'g', 'h', 'i', 'j', 'k', 'l', 'm',
   'n', 'o', 'p', 'q', 'r', 's', 't', 'u', 'v', 'w', 'x', 'y', 'z',
   '0', '1', '2', '3', '4', '5', '6', '7', '8', '9', '+', '/']

/-- The alphabet character for a 6-bit value. -/
def b64Char (n : Nat) : Char := b64Alphabet.getD n '?'

/-- Index of a character in a character list. -/
def indexOfChar : List Char → Char → Option Nat
  | [], _ => none
  | a :: rest, c =>
      if a = c then some 0 else (indexOfChar rest c).map (fun i => i + 1)

/-- The 6-bit value of an alphabet character, if any. -/
def b64Val (c : Char) : Option Nat := indexOfChar b64Alphabet c

/-- Python `base64.b64encode` on a byte string, producing the character
list of the standard-alphabet encoding with padding. -/
def b64EncodeChars : List Nat → List Char
  | a :: b :: c :: rest =>
      let n := a * 65536 + b * 256 + c
      b64Char (n / 262144) :: b64Char (n / 4096 % 64) ::
        b64Char (n / 64 % 64) :: b64Char (n % 64) :: b64EncodeChars rest
  | [a, b] =>
      [b64Char (a / 4), b64Char (a % 4 * 16 + b / 16), b64Char (b % 16 * 4), '=']
  | [a] =>
      [b64Char (a / 4), b64Char (a % 4 * 16), '=', '=']
  | [] => []

/-- Python base64.b64encode followed by utf-8 decode, as used on line 151
of the source: the encoding as a string. -/
def b64encode (bs : List Nat) : String := String.mk (b64EncodeChars bs)

/-- Base64 decoding of a character list: `none` on invalid input, otherwise
the decoded bytes. -/
def b64DecodeChars : List Char → Option (List Nat)
  | [] => some []
  | [c1, c2, '=', '='] =>
      match b64Val c1, b64Val c2 with
      | some d1, some d2 =>
          if d2 % 16 = 0 then some [d1 * 4 + d2 / 16] else none
      | _, _ => none
  | [c1, c2, c3, '='] =>
      match b64Val c1, b64Val c2, b64Val c3 with
      | some d1, some d2, some d3 =>
          if d3 % 4 = 0 then
            some [d1 * 4 + d2 / 16, d2 % 16 * 16 + d3 / 4]
          else none
      | _, _, _ => none
  | c1 :: c2 :: c3 :: c4 :: rest =>
      match b64Val c1, b64Val c2, b64Val c3, b64Val c4, b64DecodeChars rest with
      | some d1, some d2, some d3, some d4, some tail =>
          let n := d1 * 262144 + d2 * 4096 + d3 * 64 + d4
          some (n / 65536 :: n / 256 % 256 :: n % 256 :: tail)
      | _, _, _, _, _ => none
  | _ => none

/-- Base64 decoding of a string. -/
def b64decode (s : String) : Option (List Nat) := b64DecodeChars s.data

/-- A temporary-file path: the OS-assigned fresh id plus the suffix the
handler requested (`.wav` for the staged upload, `.mp3` for the speech). -/
structure TempPath where
  id : Nat
  suffix : String
deriving DecidableEq, Repr

/-- Association-list search for a path. -/
def findFile : List (TempPath × List Nat) → TempPath → Option (List Nat)
  | [], _ => none
  | kv :: rest, p => if kv.1 = p then some kv.2 else findFile rest p

/-- Remove every entry at a path. -/
def removeAll : List (TempPath × List Nat) → TempPath → List (TempPath × List Nat)
  | [], _ => []
  | kv :: rest, p =>
      if kv.1 = p then removeAll rest p else kv :: removeAll rest p

/-- The filesystem visible to the handler: stored files plus the counter
the OS uses to generate fresh temporary names. -/
structure FS where
  next : Nat
  files : List (TempPath × List Nat)
deriving DecidableEq, Repr

/-- `tempfile.NamedTemporaryFile(suffix=..., delete=False)` followed by a
write of `content`: allocates a fresh path and stores the content there. -/
def FS.createTemp (fs : FS) (suffix : String) (content : List Nat) :
    TempPath × FS :=
  (⟨fs.next, suffix⟩, ⟨fs.next + 1, (⟨fs.next, suffix⟩, content) :: fs.files⟩)

/-- Contents at a path, if the file exists. -/
def FS.lookupFile (fs : FS) (p : TempPath) : Option (List Nat) :=
  findFile fs.files p

/-- Reading a file's bytes (the handler only reads paths it created). -/
def FS.read (fs : FS) (p : TempPath) : List Nat :=
  (findFile fs.files p).getD []

/-- Overwriting a file (`speech_response.stream_to_file(temp_speech.name)`). -/
def FS.write (fs : FS) (p : TempPath) (content : List Nat) : FS :=
  ⟨fs.next, (p, content) :: removeAll fs.files p⟩

/-- `os.remove(p)`. -/
def FS.remove (fs : FS) (p : TempPath) : FS :=
  ⟨fs.next, removeAll fs.files p⟩

/-- An HTTP request's files mapping: multipart file fields by name
(`request.files`). -/
structure Request where
  files : List (String × List Nat)
deriving DecidableEq, Repr

/-- Association-list search for a form field. -/
def findField : List (String × List Nat) → String → Option (List Nat)
  | [], _ => none
  | kv :: rest, f => if kv.1 = f then some kv.2 else findField rest f

/-- An HTTP response: status code and JSON body as an ordered key/value
list (mirroring the keys passed to `jsonify`). -/
structure HttpResponse where
  status : Nat
  body : List (String × String)
deriving DecidableEq, Repr

/-- The body `jsonify` builds for an error: exactly one `error` key. -/
def errorBody (msg : String) : List (String × String) := [("error", msg)]

/-- The fixed system instruction of `generate_chat_response`. -/
def systemInstruction : String := "You are a helpful voice assistant."

/-- The exact two-message list `generate_chat_response` sends: the constant
system instruction followed by the single user message. -/
def chatMessages (user_input : String) : List ChatMessage :=
  [⟨"system", systemInstruction⟩, ⟨"user", user_input⟩]

/-- `transcribe_audio` (source lines 101-104): the transcription call on the
staged file's bytes under the retry decorator. -/
def transcribe_audio (env : Env) (fileBytes : List Nat) :
    Except Exc Transcription × List Event :=
  retryCall 6 (Event.transcribeCall fileBytes) (env.transcriptions fileBytes)

/-- `generate_chat_response` (source lines 106-114): the chat-completion
call on the fixed two-message list under the retry decorator. -/
def generate_chat_response (env : Env) (user_input : String) :
    Except Exc ChatCompletion × List Event :=
  retryCall 6 (Event.chatCall (chatMessages user_input))
    (env.chat (chatMessages user_input))

/-- `generate_speech` (source lines 116-118): the text-to-speech call under
the retry decorator. -/
def generate_speech (env : Env) (text : String) :
    Except Exc (List Nat) × List Event :=
  retryCall 6 (Event.speechCall text) (env.speech text)

/-- The outcome of one request: the HTTP response, the filesystem as the
handler leaves it, and the trace of external-service attempts. -/
structure RunResult where
  response : HttpResponse
  fs : FS
  trace : List Event
deriving Repr

/-- The `POST /voice-agent` handler (source lines 120-163), translated
branch by branch. A raised exception at any point is caught by the
handler's `except Exception` and turned into a 500 response with `str(e)`
as the error message; `chat_response.choices[0]` on an empty list raises
Python's IndexError with message `list index out of range`. Temporary files are
created with `delete=False` and removed only by the two explicit
`os.remove` calls on the success path. -/
def voice_agent (env : Env) (req : Request) (fs : FS) : RunResult :=
  match findField req.files "audio" with
  | none => ⟨⟨400, errorBody "No audio file provided"⟩, fs, []⟩
  | some audioBytes =>
    let staged := fs.createTemp ".wav" audioBytes
    let temp_audio_path := staged.1
    let fs1 := staged.2
    let tr := transcribe_audio env (fs1.read temp_audio_path)
    match tr.1 with
    | Except.error e => ⟨⟨500, errorBody (pyStr e)⟩, fs1, tr.2⟩
    | Except.ok transcription =>
      let user_input := transcription.text
      let cr := generate_chat_response env user_input
      match cr.1 with
      | Except.error e => ⟨⟨500, errorBody (pyStr e)⟩, fs1, tr.2 ++ cr.2⟩
      | Except.ok chat_response =>
        match chat_response.choices with
        | [] =>
            ⟨⟨500, errorBody "list index out of range"⟩, fs1, tr.2 ++ cr.2⟩
        | choice0 :: _ =>
          let text_response := choice0.message.content
          let staged2 := fs1.createTemp ".mp3" []
          let temp_speech_path := staged2.1
          let fs2 := staged2.2
          let sr := generate_speech env text_response
          match sr.1 with
          | Except.error e =>
              ⟨⟨500, errorBody (pyStr e)⟩, fs2, tr.2 ++ cr.2 ++ sr.2⟩
          | Except.ok speechBytes =>
            let fs3 := fs2.write temp_speech_path speechBytes
            let audio_data := fs3.read temp_speech_path
            let audio_base64 := b64encode audio_data
            let fs4 := (fs3.remove temp_audio_path).remove temp_speech_path
            ⟨⟨200, [("text_response", text_response),
                    ("audio_base64", audio_base64)]⟩,
             fs4, tr.2 ++ cr.2 ++ sr.2⟩

/-! ### Base64 lemmas -/

/-- The alphabet lookup inverts the alphabet table on 6-bit values. -/
theorem b64Val_b64Char : ∀ d, d < 64 → b64Val (b64Char d) = some d := by decide

/-- No alphabet character is the padding character. -/
theorem b64Char_ne_pad : ∀ d, d < 64 → b64Char d ≠ '=' := by decide

/-- Decoding inverts encoding on byte strings (every element below 256). -/
theorem b64DecodeChars_b64EncodeChars :
    ∀ bs : List Nat, (∀ x ∈ bs, x < 256) →
      b64DecodeChars (b64EncodeChars bs) = some bs := by
  intro bs
  induction bs using b64EncodeChars.induct with
  | case1 a b c rest ih =>
    intro h
    have ha : a < 256 := h a (by simp)
    have hb : b < 256 := h b (by simp)
    have hc : c < 256 := h c (by simp)
    have htail := ih (fun x hx => h x (by simp [hx]))
    simp only [b64EncodeChars]
    have h1 : (a * 65536 + b * 256 + c) / 262144 < 64 := by omega
    have h2 : (a * 65536 + b * 256 + c) / 4096 % 64 < 64 := by omega
    have h3 : (a * 65536 + b * 256 + c) / 64 % 64 < 64 := by omega
    have h4 : (a * 65536 + b * 256 + c) % 64 < 64 := by omega
    rw [b64DecodeChars]
    · rw [b64Val_b64Char _ h1, b64Val_b64Char _ h2, b64Val_b64Char _ h3,
          b64Val_b64Char _ h4, htail]
      simp only [Option.some.injEq, List.cons.injEq]
      refine ⟨by omega, by omega, by omega, trivial⟩
    · intro hq _ _
      exact b64Char_ne_pad _ h3 hq
    · intro hq _
      exact b64Char_ne_pad _ h4 hq
  | case2 a b =>
    intro h
    have ha : a < 256 := h a (by simp)
    have hb : b < 256 := h b (by simp)
    simp only [b64EncodeChars]
    have h1 : a / 4 < 64 := by omega
    have h2 : a % 4 * 16 + b / 16 < 64 := by omega
    have h3 : b % 16 * 4 < 64 := by omega
    rw [b64DecodeChars]
    · rw [b64Val_b64Char _ h1, b64Val_b64Char _ h2, b64Val_b64Char _ h3]
      dsimp only
      rw [if_pos (by omega)]
      simp only [Option.some.injEq, List.cons.injEq]
      refine ⟨by omega, by omega, trivial⟩
    · intro hq
      exact b64Char_ne_pad _ h3 hq
  | case3 a =>
    intro h
    have ha : a < 256 := h a (by simp)
    simp only [b64EncodeChars]
    have h1 : a / 4 < 64 := by omega
    have h2 : a % 4 * 16 < 64 := by omega
    rw [b64DecodeChars]
    rw [b64Val_b64Char _ h1, b64Val_b64Char _ h2]
    dsimp only
    rw [if_pos (by omega)]
    simp only [Option.some.injEq, List.cons.injEq, and_true]
    have e2 : a % 4 * 16 / 16 = a % 4 := by simp
    rw [e2]
    omega
  | case4 =>
    intro _
    rfl

/-- Decoding the encoded string inverts encoding. -/
theorem b64decode_b64encode (bs : List Nat) (h : ∀ x ∈ bs, x < 256) :
    b64decode (b64encode bs) = some bs := by
  unfold b64decode b64encode
  exact b64DecodeChars_b64EncodeChars bs h

/-- The encoding of a non-empty byte string is a non-empty string. -/
theorem b64encode_ne_empty (bs : List Nat) (h : bs ≠ []) :
    b64encode bs ≠ "" := by
  intro he
  have hd : (b64encode bs).data = [] := by rw [he]
  unfold b64encode at hd
  cases bs with
  | nil => exact h rfl
  | cons x rest =>
    cases rest with
    | nil => simp [b64EncodeChars] at hd
    | cons y rest2 =>
      cases rest2 with
      | nil => simp [b64EncodeChars] at hd
      | cons z rest3 => simp [b64EncodeChars] at hd

/-! ### Retry-loop lemmas -/

/-- When every attempt in the window fails, the retry loop consumes the
whole budget, wraps the last attempt's exception in `RetryError`, and its
trace is one event per attempt. -/
theorem retryAttempts_all_fail {α : Type} (call : Nat → Except Exc α)
    (mk : Nat → Event) (e : Nat → Exc) :
    ∀ fuel k, 1 ≤ fuel →
      (∀ j, k ≤ j → j < k + fuel → call j = Except.error (e j)) →
      retryAttempts call mk fuel k
        = (Except.error (Exc.retryError (e (k + fuel - 1))),
           (List.range' k fuel).map mk) := by
  intro fuel
  induction fuel with
  | zero => intro k h; omega
  | succ f ih =>
    intro k _ hfail
    cases f with
    | zero =>
      have hk : call k = Except.error (e k) := hfail k (le_refl k) (by omega)
      simp [retryAttempts, hk, List.range']
    | succ f2 =>
      have hk : call k = Except.error (e k) := hfail k (le_refl k) (by omega)
      have ih2 := ih (k + 1) (by omega)
        (fun j hj1 hj2 => hfail j (by omega) (by omega))
      simp only [retryAttempts, hk, ih2, List.range'_succ, List.map_cons]
      rw [show k + 1 + (f2 + 1) - 1 = k + (f2 + 1 + 1) - 1 from by omega]

/-- When the attempts before `m` fail and attempt `m` succeeds within the
budget, the retry loop returns that success. -/
theorem retryAttempts_succeeds {α : Type} (call : Nat → Except Exc α)
    (mk : Nat → Event) (a : α) :
    ∀ fuel k m, k ≤ m → m < k + fuel →
      (∀ j, k ≤ j → j < m → ∃ ex, call j = Except.error ex) →
      call m = Except.ok a →
      (retryAttempts call mk fuel k).1 = Except.ok a := by
  intro fuel
  induction fuel with
  | zero => intro k m h1 h2 _ _; omega
  | succ f ih =>
    intro k m hkm hlt hfail hok
    rcases Nat.eq_or_lt_of_le hkm with heq | hlt2
    · subst heq
      cases f with
      | zero => simp [retryAttempts, hok]
      | succ f2 => simp [retryAttempts, hok]
    · have hf : 1 ≤ f := by omega
      obtain ⟨ex, hex⟩ := hfail k (le_refl k) hlt2
      cases f with
      | zero => omega
      | succ f2 =>
        have ihr := ih (k + 1) m (by omega) (by omega)
          (fun j hj1 hj2 => hfail j (by omega) hj2) hok
        simp [retryAttempts, hex, ihr]

/-- Every event the retry loop records was built by its event constructor. -/
theorem retryAttempts_trace_mem {α : Type} (call : Nat → Except Exc α)
    (mk : Nat → Event) :
    ∀ fuel k ev, ev ∈ (retryAttempts call mk fuel k).2 → ∃ j, ev = mk j := by
  intro fuel
  induction fuel with
  | zero => intro k ev h; simp [retryAttempts] at h
  | succ f ih =>
    intro k ev h
    cases f with
    | zero =>
      cases hc : call k with
      | ok a => rw [retryAttempts, hc] at h; simp at h; exact ⟨k, h⟩
      | error e => rw [retryAttempts, hc] at h; simp at h; exact ⟨k, h⟩
    | succ f2 =>
      cases hc : call k with
      | ok a => rw [retryAttempts, hc] at h; simp at h; exact ⟨k, h⟩
      | error e =>
        rw [retryAttempts, hc] at h
        simp only [List.mem_cons] at h
        rcases h with h | h
        · exact ⟨k, h⟩
        · exact ih (k + 1) ev h

/-- With a positive budget the retry loop's first recorded event is the
first attempt. -/
theorem retryAttempts_trace_head {α : Type} (call : Nat → Except Exc α)
    (mk : Nat → Event) (fuel k : Nat) (h : 1 ≤ fuel) :
    ∃ rest, (retryAttempts call mk fuel k).2 = mk k :: rest := by
  cases fuel with
  | zero => omega
  | succ f =>
    cases f with
    | zero =>
      cases hc : call k with
      | ok a => exact ⟨[], by rw [retryAttempts, hc]⟩
      | error e => exact ⟨[], by rw [retryAttempts, hc]⟩
    | succ f2 =>
      cases hc : call k with
      | ok a => exact ⟨[], by rw [retryAttempts, hc]⟩
      | error e =>
        exact ⟨(retryAttempts call mk (f2 + 1) (k + 1)).2,
          by rw [retryAttempts, hc]⟩

/-! ### Filesystem lemmas -/

/-- After removing a path, looking it up finds nothing. -/
theorem findFile_removeAll_self :
    ∀ (l : List (TempPath × List Nat)) (p : TempPath),
      findFile (removeAll l p) p = none := by
  intro l p
  induction l with
  | nil => rfl
  | cons kv rest ih =>
    rw [removeAll]
    by_cases h : kv.1 = p
    · simp [h, ih]
    · simp [h, findFile, ih]

/-- Removing one path leaves lookups of other paths unchanged. -/
theorem findFile_removeAll_ne :
    ∀ (l : List (TempPath × List Nat)) (p q : TempPath), q ≠ p →
      findFile (removeAll l p) q = findFile l q := by
  intro l p q hne
  induction l with
  | nil => rfl
  | cons kv rest ih =>
    rw [removeAll, findFile]
    by_cases h : kv.1 = p
    · rw [if_pos h, ih, if_neg]
      intro hq
      exact hne (hq ▸ h)
    · rw [if_neg h, findFile, ih]

/-- Reading back the file a `createTemp` just wrote yields its content. -/
theorem read_createTemp (fs : FS) (suffix : String) (content : List Nat) :
    (fs.createTemp suffix content).2.read (fs.createTemp suffix content).1
      = content := by
  simp [FS.createTemp, FS.read, findFile]

/-! ### Trace-order lemmas -/

/-- A list of events of one stage is trivially stage-ordered pairwise. -/
theorem pairwise_le_of_const (c : Nat) :
    ∀ t : List Event, (∀ e ∈ t, stageTag e = c) →
      List.Pairwise (fun a b => stageTag a ≤ stageTag b) t := by
  intro t
  induction t with
  | nil => intro _; exact List.Pairwise.nil
  | cons x rest ih =>
    intro h
    constructor
    · intro b hb
      rw [h x (by simp), h b (by simp [hb])]
    · exact ih (fun e he => h e (by simp [he]))

/-- Concatenating homogeneous traces of the three stages in pipeline order
is stage-ordered. -/
theorem stagesOrdered_append3 (t1 t2 t3 : List Event)
    (h1 : ∀ e ∈ t1, stageTag e = 0) (h2 : ∀ e ∈ t2, stageTag e = 1)
    (h3 : ∀ e ∈ t3, stageTag e = 2) : stagesOrdered (t1 ++ t2 ++ t3) := by
  unfold stagesOrdered
  rw [List.pairwise_append]
  refine ⟨?_, pairwise_le_of_const 2 t3 h3, ?_⟩
  · rw [List.pairwise_append]
    refine ⟨pairwise_le_of_const 0 t1 h1, pairwise_le_of_const 1 t2 h2, ?_⟩
    intro a ha b hb
    rw [h1 a ha, h2 b hb]
    omega
  · intro a ha b hb
    rw [List.mem_append] at ha
    rw [h3 b hb]
    rcases ha with ha | ha
    · rw [h1 a ha]; omega
    · rw [h2 a ha]; omega

/-- Reading back the file a `write` just wrote yields its content. -/
theorem read_write (fs : FS) (p : TempPath) (content : List Nat) :
    (fs.write p content).read p = content := by
  simp [FS.write, FS.read, findFile]

/-! ### Handler branch characterizations -/

/-- Branch `if audio not in request.files` (source lines 124-125). -/
theorem voice_agent_no_audio_eq (env : Env) (req : Request) (fs : FS)
    (hA : findField req.files "audio" = none) :
    voice_agent env req fs
      = ⟨⟨400, errorBody "No audio file provided"⟩, fs, []⟩ := by
  unfold voice_agent
  rw [hA]

/-- Branch where the transcription stage raises (after its retries). -/
theorem voice_agent_transcribe_error_eq (env : Env) (req : Request) (fs : FS)
    (bs : List Nat) (e : Exc)
    (hA : findField req.files "audio" = some bs)
    (hT : (transcribe_audio env bs).1 = Except.error e) :
    voice_agent env req fs
      = ⟨⟨500, errorBody (pyStr e)⟩, (fs.createTemp ".wav" bs).2,
         (transcribe_audio env bs).2⟩ := by
  unfold voice_agent
  rw [hA]
  dsimp only
  rw [read_createTemp, hT]

/-- Branch where the completion stage raises (after its retries). -/
theorem voice_agent_chat_error_eq (env : Env) (req : Request) (fs : FS)
    (bs : List Nat) (t : Transcription) (e : Exc)
    (hA : findField req.files "audio" = some bs)
    (hT : (transcribe_audio env bs).1 = Except.ok t)
    (hC : (generate_chat_response env t.text).1 = Except.error e) :
    voice_agent env req fs
      = ⟨⟨500, errorBody (pyStr e)⟩, (fs.createTemp ".wav" bs).2,
         (transcribe_audio env bs).2 ++ (generate_chat_response env t.text).2⟩ := by
  unfold voice_agent
  rw [hA]
  dsimp only
  rw [read_createTemp, hT]
  dsimp only
  rw [hC]

/-- Branch where `chat_response.choices` is empty and the subscript on
line 140 raises IndexError. -/
theorem voice_agent_no_choices_eq (env : Env) (req : Request) (fs : FS)
    (bs : List Nat) (t : Transcription) (cc : ChatCompletion)
    (hA : findField req.files "audio" = some bs)
    (hT : (transcribe_audio env bs).1 = Except.ok t)
    (hC : (generate_chat_response env t.text).1 = Except.ok cc)
    (hcc : cc.choices = []) :
    voice_agent env req fs
      = ⟨⟨500, errorBody "list index out of range"⟩, (fs.createTemp ".wav" bs).2,
         (transcribe_audio env bs).2 ++ (generate_chat_response env t.text).2⟩ := by
  unfold voice_agent
  rw [hA]
  dsimp only
  rw [read_createTemp, hT]
  dsimp only
  rw [hC]
  dsimp only
  rw [hcc]

/-- Branch where the synthesis stage raises (after its retries): by then a
second temporary file has already been created. -/
theorem voice_agent_speech_error_eq (env : Env) (req : Request) (fs : FS)
    (bs : List Nat) (t : Transcription) (cc : ChatCompletion)
    (c0 : ChatChoice) (cs : List ChatChoice) (e : Exc)
    (hA : findField req.files "audio" = some bs)
    (hT : (transcribe_audio env bs).1 = Except.ok t)
    (hC : (generate_chat_response env t.text).1 = Except.ok cc)
    (hcc : cc.choices = c0 :: cs)
    (hS : (generate_speech env c0.message.content).1 = Except.error e) :
    voice_agent env req fs
      = ⟨⟨500, errorBody (pyStr e)⟩,
         (((fs.createTemp ".wav" bs).2).createTemp ".mp3" []).2,
         (transcribe_audio env bs).2 ++ (generate_chat_response env t.text).2
           ++ (generate_speech env c0.message.content).2⟩ := by
  unfold voice_agent
  rw [hA]
  dsimp only
  rw [read_createTemp, hT]
  dsimp only
  rw [hC]
  dsimp only
  rw [hcc]
  dsimp only
  rw [hS]

/-- The success branch: the speech bytes are streamed to the second
temporary file, read back, base64-encoded, and both temporary files are
removed before the 200 response. -/
theorem voice_agent_success_eq (env : Env) (req : Request) (fs : FS)
    (bs : List Nat) (t : Transcription) (cc : ChatCompletion)
    (c0 : ChatChoice) (cs : List ChatChoice) (speechBytes : List Nat)
    (hA : findField req.files "audio" = some bs)
    (hT : (transcribe_audio env bs).1 = Except.ok t)
    (hC : (generate_chat_response env t.text).1 = Except.ok cc)
    (hcc : cc.choices = c0 :: cs)
    (hS : (generate_speech env c0.message.content).1 = Except.ok speechBytes) :
    voice_agent env req fs
      = ⟨⟨200, [("text_response", c0.message.content),
                ("audio_base64", b64encode speechBytes)]⟩,
         ((((((fs.createTemp ".wav" bs).2).createTemp ".mp3" []).2).write
             (((fs.createTemp ".wav" bs).2).createTemp ".mp3" []).1
             speechBytes).remove (fs.createTemp ".wav" bs).1).remove
           (((fs.createTemp ".wav" bs).2).createTemp ".mp3" []).1,
         (transcribe_audio env bs).2 ++ (generate_chat_response env t.text).2
           ++ (generate_speech env c0.message.content).2⟩ := by
  unfold voice_agent
  rw [hA]
  dsimp only
  rw [read_createTemp, hT]
  dsimp only
  rw [hC]
  dsimp only
  rw [hcc]
  dsimp only
  rw [hS]
  dsimp only
  rw [read_write]

/-- A retry success comes from some attempt of the wrapped call. -/
theorem retryAttempts_ok_exists {α : Type} (call : Nat → Except Exc α)
    (mk : Nat → Event) :
    ∀ fuel k a, (retryAttempts call mk fuel k).1 = Except.ok a →
      ∃ j, call j = Except.ok a := by
  intro fuel
  induction fuel with
  | zero => intro k a h; simp [retryAttempts] at h
  | succ f ih =>
    intro k a h
    cases f with
    | zero =>
      cases hc : call k with
      | ok b => rw [retryAttempts, hc] at h; simp at h; exact ⟨k, by rw [hc, h]⟩
      | error e => rw [retryAttempts, hc] at h; simp at h
    | succ f2 =>
      cases hc : call k with
      | ok b => rw [retryAttempts, hc] at h; simp at h; exact ⟨k, by rw [hc, h]⟩
      | error e =>
        rw [retryAttempts, hc] at h
        exact ih (k + 1) a h

/-- Transcription-stage trace events are transcription attempts. -/
theorem transcribe_trace_tags (env : Env) (bs : List Nat) :
    ∀ ev ∈ (transcribe_audio env bs).2, stageTag ev = 0 := by
  intro ev hev
  obtain ⟨j, rfl⟩ := retryAttempts_trace_mem _ _ 6 1 ev hev
  rfl

/-- Completion-stage trace events are completion attempts. -/
theorem chat_trace_tags (env : Env) (u : String) :
    ∀ ev ∈ (generate_chat_response env u).2, stageTag ev = 1 := by
  intro ev hev
  obtain ⟨j, rfl⟩ := retryAttempts_trace_mem _ _ 6 1 ev hev
  rfl

/-- Synthesis-stage trace events are synthesis attempts. -/
theorem speech_trace_tags (env : Env) (s : String) :
    ∀ ev ∈ (generate_speech env s).2, stageTag ev = 2 := by
  intro ev hev
  obtain ⟨j, rfl⟩ := retryAttempts_trace_mem _ _ 6 1 ev hev
  rfl

/-- Every completion-stage trace event records exactly the two-message
list built from the user input. -/
theorem chat_trace_events (env : Env) (u : String) :
    ∀ ev ∈ (generate_chat_response env u).2,
      ∃ j, ev = Event.chatCall (chatMessages u) j := by
  intro ev hev
  exact retryAttempts_trace_mem _ _ 6 1 ev hev

/-- Exhaustive case split on one handler run: it is a 400 missing-field
response, a 500 from one of the four failure points, or a 200 success,
each with the corresponding run equation. -/
theorem voice_agent_shape (env : Env) (req : Request) (fs : FS) :
    (findField req.files "audio" = none
      ∧ voice_agent env req fs
          = ⟨⟨400, errorBody "No audio file provided"⟩, fs, []⟩)
  ∨ (∃ bs e, findField req.files "audio" = some bs
      ∧ (transcribe_audio env bs).1 = Except.error e
      ∧ voice_agent env req fs
          = ⟨⟨500, errorBody (pyStr e)⟩, (fs.createTemp ".wav" bs).2,
             (transcribe_audio env bs).2⟩)
  ∨ (∃ bs t e, findField req.files "audio" = some bs
      ∧ (transcribe_audio env bs).1 = Except.ok t
      ∧ (generate_chat_response env t.text).1 = Except.error e
      ∧ voice_agent env req fs
          = ⟨⟨500, errorBody (pyStr e)⟩, (fs.createTemp ".wav" bs).2,
             (transcribe_audio env bs).2
               ++ (generate_chat_response env t.text).2⟩)
  ∨ (∃ bs t cc, findField req.files "audio" = some bs
      ∧ (transcribe_audio env bs).1 = Except.ok t
      ∧ (generate_chat_response env t.text).1 = Except.ok cc
      ∧ cc.choices = []
      ∧ voice_agent env req fs
          = ⟨⟨500, errorBody "list index out of range"⟩,
             (fs.createTemp ".wav" bs).2,
             (transcribe_audio env bs).2
               ++ (generate_chat_response env t.text).2⟩)
  ∨ (∃ bs t cc c0 cs e, findField req.files "audio" = some bs
      ∧ (transcribe_audio env bs).1 = Except.ok t
      ∧ (generate_chat_response env t.text).1 = Except.ok cc
      ∧ cc.choices = c0 :: cs
      ∧ (generate_speech env c0.message.content).1 = Except.error e
      ∧ voice_agent env req fs
          = ⟨⟨500, errorBody (pyStr e)⟩,
             (((fs.createTemp ".wav" bs).2).createTemp ".mp3" []).2,
             (transcribe_audio env bs).2
               ++ (generate_chat_response env t.text).2
               ++ (generate_speech env c0.message.content).2⟩)
  ∨ (∃ bs t cc c0 cs sb, findField req.files "audio" = some bs
      ∧ (transcribe_audio env bs).1 = Except.ok t
      ∧ (generate_chat_response env t.text).1 = Except.ok cc
      ∧ cc.choices = c0 :: cs
      ∧ (generate_speech env c0.message.content).1 = Except.ok sb
      ∧ voice_agent env req fs
          = ⟨⟨200, [("text_response", c0.message.content),
                    ("audio_base64", b64encode sb)]⟩,
             ((((((fs.createTemp ".wav" bs).2).createTemp ".mp3" []).2).write
                 (((fs.createTemp ".wav" bs).2).createTemp ".mp3" []).1
                 sb).remove (fs.createTemp ".wav" bs).1).remove
               (((fs.createTemp ".wav" bs).2).createTemp ".mp3" []).1,
             (transcribe_audio env bs).2
               ++ (generate_chat_response env t.text).2
               ++ (generate_speech env c0.message.content).2⟩) := by
  cases hA : findField req.files "audio" with
  | none => exact Or.inl ⟨rfl, voice_agent_no_audio_eq env req fs hA⟩
  | some bs =>
    cases hT : (transcribe_audio env bs).1 with
    | error e =>
      exact Or.inr (Or.inl ⟨bs, e, rfl, hT,
        voice_agent_transcribe_error_eq env req fs bs e hA hT⟩)
    | ok t =>
      cases hC : (generate_chat_response env t.text).1 with
      | error e =>
        exact Or.inr (Or.inr (Or.inl ⟨bs, t, e, rfl, hT, hC,
          voice_agent_chat_error_eq env req fs bs t e hA hT hC⟩))
      | ok cc =>
        cases hcc : cc.choices with
        | nil =>
          exact Or.inr (Or.inr (Or.inr (Or.inl ⟨bs, t, cc, rfl, hT, hC, hcc,
            voice_agent_no_choices_eq env req fs bs t cc hA hT hC hcc⟩)))
        | cons c0 cs =>
          cases hS : (generate_speech env c0.message.content).1 with
          | error e =>
            exact Or.inr (Or.inr (Or.inr (Or.inr (Or.inl
              ⟨bs, t, cc, c0, cs, e, rfl, hT, hC, hcc, hS,
               voice_agent_speech_error_eq env req fs bs t cc c0 cs e
                 hA hT hC hcc hS⟩))))
          | ok sb =>
            exact Or.inr (Or.inr (Or.inr (Or.inr (Or.inr
              ⟨bs, t, cc, c0, cs, sb, rfl, hT, hC, hcc, hS,
               voice_agent_success_eq env req fs bs t cc c0 cs sb
                 hA hT hC hcc hS⟩))))

/-- In every run the recorded stages occur in pipeline order. -/
theorem voice_agent_trace_ordered (env : Env) (req : Request) (fs : FS) :
    stagesOrdered (voice_agent env req fs).trace := by
  rcases voice_agent_shape env req fs with
    ⟨_, heq⟩ | ⟨bs, e, _, _, heq⟩ | ⟨bs, t, e, _, _, _, heq⟩
    | ⟨bs, t, cc, _, _, _, _, heq⟩ | ⟨bs, t, cc, c0, cs, e, _, _, _, _, _, heq⟩
    | ⟨bs, t, cc, c0, cs, sb, _, _, _, _, _, heq⟩
  · rw [heq]
    exact List.Pairwise.nil
  · rw [heq]
    have h := stagesOrdered_append3 (transcribe_audio env bs).2 [] []
      (transcribe_trace_tags env bs) (by simp) (by simp)
    simpa using h
  · rw [heq]
    have h := stagesOrdered_append3 (transcribe_audio env bs).2
      (generate_chat_response env t.text).2 []
      (transcribe_trace_tags env bs) (chat_trace_tags env t.text) (by simp)
    simpa using h
  · rw [heq]
    have h := stagesOrdered_append3 (transcribe_audio env bs).2
      (generate_chat_response env t.text).2 []
      (transcribe_trace_tags env bs) (chat_trace_tags env t.text) (by simp)
    simpa using h
  · rw [heq]
    exact stagesOrdered_append3 _ _ _
      (transcribe_trace_tags env bs) (chat_trace_tags env t.text)
      (speech_trace_tags env c0.message.content)
  · rw [heq]
    exact stagesOrdered_append3 _ _ _
      (transcribe_trace_tags env bs) (chat_trace_tags env t.text)
      (speech_trace_tags env c0.message.content)

/-- The first attempt's event is in the transcription-stage trace. -/
theorem transcribe_trace_first (env : Env) (bs : List Nat) :
    Event.transcribeCall bs 1 ∈ (transcribe_audio env bs).2 := by
  obtain ⟨rest, hr⟩ := retryAttempts_trace_head (env.transcriptions bs)
    (Event.transcribeCall bs) 6 1 (by omega)
  unfold transcribe_audio retryCall
  rw [hr]
  simp

/-! ### Claim theorems -/

/-- C3: a request whose multipart form has no file field named audio gets
HTTP 400 with exactly the body error = No audio file provided, the
filesystem is untouched, and the trace is empty — no external-service call
and no retry happens — regardless of any other form fields present. -/
theorem missing_audio_returns_400_without_calls (env : Env) (req : Request)
    (fs : FS) (hA : findField req.files "audio" = none) :
    voice_agent env req fs
      = ⟨⟨400, errorBody "No audio file provided"⟩, fs, []⟩ :=
  voice_agent_no_audio_eq env req fs hA

/-- C3 witness: a request with a different file field but no audio field. -/
theorem missing_audio_returns_400_without_calls_witness :
    voice_agent
        ⟨fun _ _ => Except.ok ⟨"t"⟩, fun _ _ => Except.ok ⟨[]⟩,
         fun _ _ => Except.ok []⟩
        ⟨[("video", [1, 2])]⟩ ⟨0, []⟩
      = ⟨⟨400, errorBody "No audio file provided"⟩, ⟨0, []⟩, []⟩ :=
  missing_audio_returns_400_without_calls _ _ _ (by rfl)

/-- C9: the precondition only tests presence of the audio field: a present
but zero-byte audio part is not rejected (the status is never 400) and the
transcription stage is invoked on the empty staged bytes. -/
theorem empty_audio_passes_presence_check (env : Env) (req : Request)
    (fs : FS) (hA : findField req.files "audio" = some ([] : List Nat)) :
    (voice_agent env req fs).response.status ≠ 400
    ∧ Event.transcribeCall [] 1 ∈ (voice_agent env req fs).trace := by
  rcases voice_agent_shape env req fs with
    ⟨hA2, heq⟩ | ⟨bs, e, hA2, hT, heq⟩ | ⟨bs, t, e, hA2, hT, hC, heq⟩
    | ⟨bs, t, cc, hA2, hT, hC, hcc, heq⟩
    | ⟨bs, t, cc, c0, cs, e, hA2, hT, hC, hcc, hS, heq⟩
    | ⟨bs, t, cc, c0, cs, sb, hA2, hT, hC, hcc, hS, heq⟩
  · rw [hA] at hA2
    exact Option.noConfusion hA2
  · rw [hA] at hA2
    injection hA2 with hbs
    subst hbs
    refine ⟨?_, ?_⟩
    · rw [heq]; simp
    · rw [heq]
      exact transcribe_trace_first env []
  · rw [hA] at hA2
    injection hA2 with hbs
    subst hbs
    refine ⟨?_, ?_⟩
    · rw [heq]; simp
    · rw [heq]
      exact List.mem_append_left _ (transcribe_trace_first env [])
  · rw [hA] at hA2
    injection hA2 with hbs
    subst hbs
    refine ⟨?_, ?_⟩
    · rw [heq]; simp
    · rw [heq]
      exact List.mem_append_left _ (transcribe_trace_first env [])
  · rw [hA] at hA2
    injection hA2 with hbs
    subst hbs
    refine ⟨?_, ?_⟩
    · rw [heq]; simp
    · rw [heq]
      exact List.mem_append_left _
        (List.mem_append_left _ (transcribe_trace_first env []))
  · rw [hA] at hA2
    injection hA2 with hbs
    subst hbs
    refine ⟨?_, ?_⟩
    · rw [heq]; simp
    · rw [heq]
      exact List.mem_append_left _
        (List.mem_append_left _ (transcribe_trace_first env []))

/-- C9 witness: a zero-byte audio part reaches transcription. -/
theorem empty_audio_passes_presence_check_witness :
    (voice_agent
        ⟨fun _ _ => Except.ok ⟨"t"⟩, fun _ _ => Except.ok ⟨[]⟩,
         fun _ _ => Except.ok []⟩
        ⟨[("audio", [])]⟩ ⟨0, []⟩).response.status ≠ 400
    ∧ Event.transcribeCall [] 1
        ∈ (voice_agent
            ⟨fun _ _ => Except.ok ⟨"t"⟩, fun _ _ => Except.ok ⟨[]⟩,
             fun _ _ => Except.ok []⟩
            ⟨[("audio", [])]⟩ ⟨0, []⟩).trace :=
  empty_audio_passes_presence_check _ _ _ (by rfl)

/-- C1 counterexample: with a transcription oracle failing every attempt,
the handler returns HTTP 500 while the staged input audio file (the first
temporary file of the request) is still present on the filesystem — the
claimed unconditional deletion fails on the failure outcome. -/
theorem staged_audio_survives_failure_cex :
    (voice_agent
        ⟨fun _ _ => Except.error (Exc.exc "Exception" "boom"),
         fun _ _ => Except.error (Exc.exc "Exception" "boom"),
         fun _ _ => Except.error (Exc.exc "Exception" "boom")⟩
        ⟨[("audio", [1, 2, 3])]⟩ ⟨0, []⟩).response.status = 500
    ∧ (voice_agent
        ⟨fun _ _ => Except.error (Exc.exc "Exception" "boom"),
         fun _ _ => Except.error (Exc.exc "Exception" "boom"),
         fun _ _ => Except.error (Exc.exc "Exception" "boom")⟩
        ⟨[("audio", [1, 2, 3])]⟩ ⟨0, []⟩).fs.lookupFile ⟨0, ".wav"⟩
      = some [1, 2, 3] := by
  exact ⟨rfl, rfl⟩

/-- C1 (amended): the two temporary files are deleted by the time the
handler returns when the pipeline succeeds (status 200); but on a stage
exception the handler returns HTTP 500 without deleting — the staged input
audio file is still present in every 500 outcome. -/
theorem temp_files_deleted_only_on_success (env : Env) (req : Request)
    (fs : FS) :
    ((voice_agent env req fs).response.status = 200 →
      (voice_agent env req fs).fs.lookupFile ⟨fs.next, ".wav"⟩ = none
      ∧ (voice_agent env req fs).fs.lookupFile ⟨fs.next + 1, ".mp3"⟩ = none)
    ∧ (∀ bs, findField req.files "audio" = some bs →
        (voice_agent env req fs).response.status = 500 →
        (voice_agent env req fs).fs.lookupFile ⟨fs.next, ".wav"⟩ = some bs) := by
  have hne : (⟨fs.next, ".wav"⟩ : TempPath) ≠ ⟨fs.next + 1, ".mp3"⟩ := by
    intro h
    injection h with h1 h2
    omega
  rcases voice_agent_shape env req fs with
    ⟨hA, heq⟩ | ⟨bs, e, hA, hT, heq⟩ | ⟨bs, t, e, hA, hT, hC, heq⟩
    | ⟨bs, t, cc, hA, hT, hC, hcc, heq⟩
    | ⟨bs, t, cc, c0, cs, e, hA, hT, hC, hcc, hS, heq⟩
    | ⟨bs, t, cc, c0, cs, sb, hA, hT, hC, hcc, hS, heq⟩
  · rw [heq]
    constructor
    · intro h
      simp at h
    · intro bs hbs
      rw [hA] at hbs
      exact Option.noConfusion hbs
  · rw [heq]
    constructor
    · intro h
      simp at h
    · intro bs' hbs _
      rw [hA] at hbs
      injection hbs with hbs
      subst hbs
      simp [FS.createTemp, FS.lookupFile, findFile]
  · rw [heq]
    constructor
    · intro h
      simp at h
    · intro bs' hbs _
      rw [hA] at hbs
      injection hbs with hbs
      subst hbs
      simp [FS.createTemp, FS.lookupFile, findFile]
  · rw [heq]
    constructor
    · intro h
      simp at h
    · intro bs' hbs _
      rw [hA] at hbs
      injection hbs with hbs
      subst hbs
      simp [FS.createTemp, FS.lookupFile, findFile]
  · rw [heq]
    constructor
    · intro h
      simp at h
    · intro bs' hbs _
      rw [hA] at hbs
      injection hbs with hbs
      subst hbs
      simp only [FS.createTemp, FS.lookupFile, findFile]
      rw [if_neg]
      · simp
      · intro h
        injection h with h1 h2
        omega
  · rw [heq]
    constructor
    · intro _
      constructor
      · simp only [FS.createTemp, FS.remove, FS.write, FS.lookupFile]
        rw [findFile_removeAll_ne _ _ _ hne, findFile_removeAll_self]
      · simp only [FS.createTemp, FS.remove, FS.write, FS.lookupFile]
        rw [findFile_removeAll_self]
    · intro bs' hbs h500
      simp at h500

/-- C1 witness: a fully successful run deletes both temporary files. -/
theorem temp_files_deleted_only_on_success_witness :
    (voice_agent
        ⟨fun _ _ => Except.ok ⟨"hi"⟩, fun _ _ => Except.ok ⟨[⟨⟨"ok"⟩⟩]⟩,
         fun _ _ => Except.ok [5]⟩
        ⟨[("audio", [9])]⟩ ⟨0, []⟩).fs.lookupFile ⟨0, ".wav"⟩ = none
    ∧ (voice_agent
        ⟨fun _ _ => Except.ok ⟨"hi"⟩, fun _ _ => Except.ok ⟨[⟨⟨"ok"⟩⟩]⟩,
         fun _ _ => Except.ok [5]⟩
        ⟨[("audio", [9])]⟩ ⟨0, []⟩).fs.lookupFile ⟨1, ".mp3"⟩ = none :=
  (temp_files_deleted_only_on_success _ _ _).1 (by rfl)

/-- C2 counterexample: with a transcription oracle that raises an
exception with message boom on every attempt, the HTTP 500 body's error
field is the RetryError wrapper's string, not the underlying message boom
— the final exception does not propagate unmodified. -/
theorem exhaustion_body_not_verbatim_cex :
    (voice_agent
        ⟨fun _ _ => Except.error (Exc.exc "Exception" "boom"),
         fun _ _ => Except.ok ⟨[]⟩, fun _ _ => Except.ok []⟩
        ⟨[("audio", [4])]⟩ ⟨0, []⟩).response.body
      = errorBody "RetryError[<Future state=finished raised Exception>]"
    ∧ (voice_agent
        ⟨fun _ _ => Except.error (Exc.exc "Exception" "boom"),
         fun _ _ => Except.ok ⟨[]⟩, fun _ _ => Except.ok []⟩
        ⟨[("audio", [4])]⟩ ⟨0, []⟩).response.body
      ≠ errorBody "boom" := by
  constructor
  · rfl
  · decide

/-- C2 (amended): when a stage's six attempts all fail, the retry wrapper
does not propagate the final exception unmodified: it raises a tenacity
RetryError wrapping the last attempt's exception, and the ingress
handler's HTTP 500 error field is that RetryError's string form — which
names the wrapped exception's class, not its message. Stated for the
generic wrapper and for transcription exhausting at the ingress handler. -/
theorem exhaustion_wraps_final_exception :
    (∀ (β : Type) (mk : Nat → Event) (call : Nat → Except Exc β)
       (e : Nat → Exc),
       (∀ k, 1 ≤ k → k ≤ 6 → call k = Except.error (e k)) →
       (retryCall 6 mk call).1 = Except.error (Exc.retryError (e 6)))
  ∧ (∀ (env : Env) (req : Request) (fs : FS) (bs : List Nat) (e : Nat → Exc),
       findField req.files "audio" = some bs →
       (∀ k, 1 ≤ k → k ≤ 6 → env.transcriptions bs k = Except.error (e k)) →
       (voice_agent env req fs).response
         = ⟨500, errorBody ("RetryError[<Future state=finished raised "
             ++ excClass (e 6) ++ ">]")⟩) := by
  have hwrap : ∀ (β : Type) (mk : Nat → Event) (call : Nat → Except Exc β)
      (e : Nat → Exc),
      (∀ k, 1 ≤ k → k ≤ 6 → call k = Except.error (e k)) →
      (retryCall 6 mk call).1 = Except.error (Exc.retryError (e 6)) := by
    intro β mk call e hf
    unfold retryCall
    rw [retryAttempts_all_fail call mk e 6 1 (by omega)
      (fun j h1 h2 => hf j h1 (by omega))]
  constructor
  · exact hwrap
  · intro env req fs bs e hA hf
    have hT : (transcribe_audio env bs).1
        = Except.error (Exc.retryError (e 6)) := by
      unfold transcribe_audio
      exact hwrap _ _ _ e hf
    rw [voice_agent_transcribe_error_eq env req fs bs _ hA hT]
    simp [pyStr]

/-- C2 witness: transcription failing six times surfaces the RetryError
string in the 500 body. -/
theorem exhaustion_wraps_final_exception_witness :
    (voice_agent
        ⟨fun _ _ => Except.error (Exc.exc "Exception" "quota exceeded"),
         fun _ _ => Except.ok ⟨[]⟩, fun _ _ => Except.ok []⟩
        ⟨[("audio", [4])]⟩ ⟨0, []⟩).response
      = ⟨500, errorBody ("RetryError[<Future state=finished raised "
          ++ excClass (Exc.exc "Exception" "quota exceeded") ++ ">]")⟩ :=
  exhaustion_wraps_final_exception.2 _ _ _ [4]
    (fun _ => Exc.exc "Exception" "quota exceeded") (by rfl)
    (fun _ _ _ => rfl)

/-- C4 counterexample: on the first retry the random window is [0, 1] and
the legal uniform sample r = 1/2 yields a wait of 1/2, strictly below the
claimed per-wait floor of 1 — the min/max bounds clamp the window's upper
end, not the drawn wait itself. -/
theorem backoff_wait_below_floor_cex :
    wait_random_exponential_val 1 2 1 60 1 (1 / 2) = 1 / 2
    ∧ wait_random_exponential_val 1 2 1 60 1 (1 / 2) < 1
    ∧ (0 : ℚ) ≤ 1 / 2 ∧ (1 / 2 : ℚ) ≤ 1 := by
  refine ⟨?_, ?_, by norm_num, by norm_num⟩
  · simp only [wait_random_exponential_val, wait_exponential_val]
    norm_num
  · simp only [wait_random_exponential_val, wait_exponential_val]
    norm_num

/-- C4 (amended): each stage retries on any exception with a cap of 6
total attempts — failing 5 times then succeeding on the 6th lets the
pipeline succeed, failing all 6 makes it fail — and each wait is a uniform
draw from the window [0, high] whose upper end high is the exponential
value clamped between 1 and 60; the drawn wait itself lies in [0, 60] and
can be below 1. -/
theorem retry_cap_and_backoff_window :
    (∀ (env : Env) (req : Request) (fs : FS) (bs : List Nat) (e : Nat → Exc)
       (t : Transcription) (cc : ChatCompletion) (sb : List Nat),
       findField req.files "audio" = some bs →
       (∀ k, 1 ≤ k → k ≤ 5 → env.transcriptions bs k = Except.error (e k)) →
       env.transcriptions bs 6 = Except.ok t →
       (∀ msgs k, env.chat msgs k = Except.ok cc) →
       cc.choices ≠ [] →
       (∀ s k, env.speech s k = Except.ok sb) →
       (voice_agent env req fs).response.status = 200)
  ∧ (∀ (env : Env) (req : Request) (fs : FS) (bs : List Nat) (e : Nat → Exc),
       findField req.files "audio" = some bs →
       (∀ k, 1 ≤ k → k ≤ 6 → env.transcriptions bs k = Except.error (e k)) →
       (voice_agent env req fs).response.status = 500)
  ∧ (∀ (a : Nat) (r : ℚ), 0 ≤ r → r ≤ 1 →
       0 ≤ wait_random_exponential_val 1 2 1 60 a r
       ∧ wait_random_exponential_val 1 2 1 60 a r ≤ 60
       ∧ 1 ≤ wait_exponential_val 1 2 1 60 a
       ∧ wait_exponential_val 1 2 1 60 a ≤ 60) := by
  refine ⟨?_, ?_, ?_⟩
  · intro env req fs bs e t cc sb hA h5 h6 hchat hcc hspeech
    have hT : (transcribe_audio env bs).1 = Except.ok t := by
      unfold transcribe_audio retryCall
      exact retryAttempts_succeeds (env.transcriptions bs) _ t 6 1 6
        (by omega) (by omega)
        (fun j h1 h2 => ⟨e j, h5 j h1 (by omega)⟩) h6
    have hC : (generate_chat_response env t.text).1 = Except.ok cc := by
      unfold generate_chat_response retryCall
      exact retryAttempts_succeeds _ _ cc 6 1 1 (le_refl 1) (by omega)
        (fun j h1 h2 => absurd h2 (by omega)) (hchat _ 1)
    cases hchoices : cc.choices with
    | nil => exact absurd hchoices hcc
    | cons c0 cs =>
      have hS : (generate_speech env c0.message.content).1 = Except.ok sb := by
        unfold generate_speech retryCall
        exact retryAttempts_succeeds _ _ sb 6 1 1 (le_refl 1) (by omega)
          (fun j h1 h2 => absurd h2 (by omega)) (hspeech _ 1)
      rw [voice_agent_success_eq env req fs bs t cc c0 cs sb hA hT hC
        hchoices hS]
  · intro env req fs bs e hA hf
    have hT : (transcribe_audio env bs).1
        = Except.error (Exc.retryError (e 6)) := by
      unfold transcribe_audio retryCall
      rw [retryAttempts_all_fail (env.transcriptions bs) _ e 6 1 (by omega)
        (fun j h1 h2 => hf j h1 (by omega))]
    rw [voice_agent_transcribe_error_eq env req fs bs _ hA hT]
  · intro a r hr0 hr1
    simp only [wait_random_exponential_val]
    have h1 : (1 : ℚ) ≤ wait_exponential_val 1 2 1 60 a := by
      unfold wait_exponential_val
      refine le_trans ?_ (le_max_left _ _)
      norm_num
    have h60 : wait_exponential_val 1 2 1 60 a ≤ 60 := by
      unfold wait_exponential_val
      exact max_le (by norm_num) (min_le_right _ _)
    have h0 : (0 : ℚ) ≤ wait_exponential_val 1 2 1 60 a :=
      le_trans (by norm_num) h1
    refine ⟨mul_nonneg hr0 h0, ?_, h1, h60⟩
    calc r * wait_exponential_val 1 2 1 60 a
        ≤ 1 * wait_exponential_val 1 2 1 60 a :=
          mul_le_mul_of_nonneg_right hr1 h0
      _ = wait_exponential_val 1 2 1 60 a := one_mul _
      _ ≤ 60 := h60

/-- C4 witness: 5 failures then a success yields 200; 6 failures yields
500; a concrete third-attempt wait draw is within [0, 60]. -/
theorem retry_cap_and_backoff_window_witness :
    (voice_agent
        ⟨fun _ k => if k < 6 then Except.error (Exc.exc "E" "x")
            else Except.ok ⟨"hi"⟩,
         fun _ _ => Except.ok ⟨[⟨⟨"r"⟩⟩]⟩, fun _ _ => Except.ok [1]⟩
        ⟨[("audio", [2])]⟩ ⟨0, []⟩).response.status = 200
    ∧ (voice_agent
        ⟨fun _ _ => Except.error (Exc.exc "E" "x"),
         fun _ _ => Except.ok ⟨[⟨⟨"r"⟩⟩]⟩, fun _ _ => Except.ok [1]⟩
        ⟨[("audio", [2])]⟩ ⟨0, []⟩).response.status = 500
    ∧ 0 ≤ wait_random_exponential_val 1 2 1 60 3 (1 / 3)
    ∧ wait_random_exponential_val 1 2 1 60 3 (1 / 3) ≤ 60 := by
  refine ⟨?_, ?_, ?_, ?_⟩
  · exact retry_cap_and_backoff_window.1 _ _ _ [2]
      (fun _ => Exc.exc "E" "x") ⟨"hi"⟩ ⟨[⟨⟨"r"⟩⟩]⟩ [1] (by rfl)
      (fun k h1 h2 => by dsimp only; rw [if_pos (by omega)]) (by rfl)
      (fun _ _ => rfl) (by simp) (fun _ _ => rfl)
  · exact retry_cap_and_backoff_window.2.1 _ _ _ [2]
      (fun _ => Exc.exc "E" "x") (by rfl) (fun _ _ _ => rfl)
  · exact (retry_cap_and_backoff_window.2.2 3 (1 / 3) (by norm_num)
      (by norm_num)).1
  · exact (retry_cap_and_backoff_window.2.2 3 (1 / 3) (by norm_num)
      (by norm_num)).2.1

/-- C5: if the transcription stage fails on all six attempts, the response
is HTTP 500 whose body is only the error field (no success-shaped
payload), every external call of the run is a transcription attempt (the
completion and synthesis stages are never invoked), and in every run the
stages occur in the fixed pipeline order. -/
theorem transcription_exhaustion_aborts_pipeline (env : Env) (req : Request)
    (fs : FS) (bs : List Nat) (e : Nat → Exc)
    (hA : findField req.files "audio" = some bs)
    (hf : ∀ k, 1 ≤ k → k ≤ 6 → env.transcriptions bs k = Except.error (e k)) :
    (voice_agent env req fs).response.status = 500
    ∧ (voice_agent env req fs).response.body
        = errorBody (pyStr (Exc.retryError (e 6)))
    ∧ (∀ ev ∈ (voice_agent env req fs).trace,
        ∃ a k, ev = Event.transcribeCall a k)
    ∧ (∀ (env2 : Env) (req2 : Request) (fs2 : FS),
        stagesOrdered (voice_agent env2 req2 fs2).trace) := by
  have hT : (transcribe_audio env bs).1
      = Except.error (Exc.retryError (e 6)) := by
    unfold transcribe_audio retryCall
    rw [retryAttempts_all_fail (env.transcriptions bs) _ e 6 1 (by omega)
      (fun j h1 h2 => hf j h1 (by omega))]
  rw [voice_agent_transcribe_error_eq env req fs bs _ hA hT]
  refine ⟨rfl, rfl, ?_, fun env2 req2 fs2 =>
    voice_agent_trace_ordered env2 req2 fs2⟩
  intro ev hev
  obtain ⟨j, rfl⟩ := retryAttempts_trace_mem (env.transcriptions bs)
    (Event.transcribeCall bs) 6 1 ev hev
  exact ⟨bs, j, rfl⟩

/-- C5 witness: a permanently failing transcription oracle aborts the
pipeline with the RetryError message. -/
theorem transcription_exhaustion_aborts_pipeline_witness :
    (voice_agent
        ⟨fun _ _ => Except.error (Exc.exc "Exception" "down"),
         fun _ _ => Except.ok ⟨[]⟩, fun _ _ => Except.ok []⟩
        ⟨[("audio", [8])]⟩ ⟨0, []⟩).response.status = 500
    ∧ (voice_agent
        ⟨fun _ _ => Except.error (Exc.exc "Exception" "down"),
         fun _ _ => Except.ok ⟨[]⟩, fun _ _ => Except.ok []⟩
        ⟨[("audio", [8])]⟩ ⟨0, []⟩).response.body
      = errorBody (pyStr (Exc.retryError (Exc.exc "Exception" "down"))) :=
  ⟨(transcription_exhaustion_aborts_pipeline _ _ _ [8]
      (fun _ => Exc.exc "Exception" "down") (by rfl) (fun _ _ _ => rfl)).1,
   (transcription_exhaustion_aborts_pipeline _ _ _ [8]
      (fun _ => Exc.exc "Exception" "down") (by rfl) (fun _ _ _ => rfl)).2.1⟩

/-- C6 counterexample: a successful (HTTP 200) run on a non-empty audio
input can carry an empty text_response — the handler never checks the
reply text for non-emptiness, so the claimed non-emptiness of both fields
fails. -/
theorem success_with_empty_reply_text_cex :
    (voice_agent
        ⟨fun _ _ => Except.ok ⟨"hello"⟩, fun _ _ => Except.ok ⟨[⟨⟨""⟩⟩]⟩,
         fun _ _ => Except.ok [7]⟩
        ⟨[("audio", [1])]⟩ ⟨0, []⟩).response
      = ⟨200, [("text_response", ""), ("audio_base64", "Bw==")]⟩ := by
  rfl

/-- C6 (amended): every 200 response has exactly the two fields
text_response and audio_base64 in that order; audio_base64 is the base64
encoding of exactly the byte sequence the synthesis stage produced for the
returned text and decodes back to those bytes, and it is non-empty
whenever those bytes are non-empty. The handler does not enforce
non-emptiness of either field: that holds only when the external stages
return non-empty outputs. -/
theorem success_payload_shape_and_base64_roundtrip (env : Env)
    (req : Request) (fs : FS)
    (hv : ∀ s k b, env.speech s k = Except.ok b → ∀ x ∈ b, x < 256)
    (h200 : (voice_agent env req fs).response.status = 200) :
    ∃ t bytes,
      (voice_agent env req fs).response.body
        = [("text_response", t), ("audio_base64", b64encode bytes)]
      ∧ b64decode (b64encode bytes) = some bytes
      ∧ (generate_speech env t).1 = Except.ok bytes
      ∧ (bytes ≠ [] → b64encode bytes ≠ "") := by
  rcases voice_agent_shape env req fs with
    ⟨hA, heq⟩ | ⟨bs, e, hA, hT, heq⟩ | ⟨bs, t, e, hA, hT, hC, heq⟩
    | ⟨bs, t, cc, hA, hT, hC, hcc, heq⟩
    | ⟨bs, t, cc, c0, cs, e, hA, hT, hC, hcc, hS, heq⟩
    | ⟨bs, t, cc, c0, cs, sb, hA, hT, hC, hcc, hS, heq⟩
  · rw [heq] at h200; simp at h200
  · rw [heq] at h200; simp at h200
  · rw [heq] at h200; simp at h200
  · rw [heq] at h200; simp at h200
  · rw [heq] at h200; simp at h200
  · have hsb : ∀ x ∈ sb, x < 256 := by
      have hS2 := hS
      unfold generate_speech retryCall at hS2
      obtain ⟨j, hj⟩ := retryAttempts_ok_exists
        (env.speech c0.message.content) (Event.speechCall c0.message.content)
        6 1 sb hS2
      exact hv c0.message.content j sb hj
    refine ⟨c0.message.content, sb, ?_, b64decode_b64encode sb hsb, hS,
      fun hnb => b64encode_ne_empty sb hnb⟩
    rw [heq]

/-- C6 witness: a concrete successful run round-trips its audio bytes. -/
theorem success_payload_shape_and_base64_roundtrip_witness :
    ∃ t bytes,
      (voice_agent
          ⟨fun _ _ => Except.ok ⟨"q"⟩, fun _ _ => Except.ok ⟨[⟨⟨"ok"⟩⟩]⟩,
           fun _ _ => Except.ok [77, 97, 110]⟩
          ⟨[("audio", [3])]⟩ ⟨0, []⟩).response.body
        = [("text_response", t), ("audio_base64", b64encode bytes)]
      ∧ b64decode (b64encode bytes) = some bytes
      ∧ (generate_speech
          ⟨fun _ _ => Except.ok ⟨"q"⟩, fun _ _ => Except.ok ⟨[⟨⟨"ok"⟩⟩]⟩,
           fun _ _ => Except.ok [77, 97, 110]⟩ t).1
          = Except.ok bytes
      ∧ (bytes ≠ [] → b64encode bytes ≠ "") :=
  success_payload_shape_and_base64_roundtrip _ _ _
    (fun s k b hb => by injection hb with hb; subst hb; decide) (by rfl)

/-- C7: whenever the completion stage is invoked it is passed exactly two
messages — the constant system instruction followed by one user message
carrying the transcript of this very request, with no further history —
and on success the returned text_response is the first completion choice's
message content. -/
theorem chat_prompt_fixed_two_messages_first_choice :
    (∀ (env : Env) (req : Request) (fs : FS) (msgs : List ChatMessage)
       (k : Nat),
       Event.chatCall msgs k ∈ (voice_agent env req fs).trace →
       ∃ bs t, findField req.files "audio" = some bs
         ∧ (transcribe_audio env bs).1 = Except.ok t
         ∧ msgs = [⟨"system", "You are a helpful voice assistant."⟩,
                   ⟨"user", t.text⟩])
  ∧ (∀ (env : Env) (req : Request) (fs : FS),
       (voice_agent env req fs).response.status = 200 →
       ∃ t cc c0 cs,
         (generate_chat_response env t).1 = Except.ok cc
         ∧ cc.choices = c0 :: cs
         ∧ (voice_agent env req fs).response.body.head?
             = some ("text_response", c0.message.content)) := by
  constructor
  · intro env req fs msgs k hmem
    rcases voice_agent_shape env req fs with
      ⟨hA, heq⟩ | ⟨bs, e, hA, hT, heq⟩ | ⟨bs, t, e, hA, hT, hC, heq⟩
      | ⟨bs, t, cc, hA, hT, hC, hcc, heq⟩
      | ⟨bs, t, cc, c0, cs, e, hA, hT, hC, hcc, hS, heq⟩
      | ⟨bs, t, cc, c0, cs, sb, hA, hT, hC, hcc, hS, heq⟩
    · rw [heq] at hmem
      simp at hmem
    · rw [heq] at hmem
      obtain ⟨j, hj⟩ := retryAttempts_trace_mem (env.transcriptions bs)
        (Event.transcribeCall bs) 6 1 _ hmem
      exact Event.noConfusion hj
    · rw [heq] at hmem
      rcases List.mem_append.mp hmem with hmem2 | hmem2
      · obtain ⟨j, hj⟩ := retryAttempts_trace_mem (env.transcriptions bs)
          (Event.transcribeCall bs) 6 1 _ hmem2
        exact Event.noConfusion hj
      · obtain ⟨j, hj⟩ := chat_trace_events env t.text _ hmem2
        injection hj with hmsgs _
        exact ⟨bs, t, hA, hT, hmsgs⟩
    · rw [heq] at hmem
      rcases List.mem_append.mp hmem with hmem2 | hmem2
      · obtain ⟨j, hj⟩ := retryAttempts_trace_mem (env.transcriptions bs)
          (Event.transcribeCall bs) 6 1 _ hmem2
        exact Event.noConfusion hj
      · obtain ⟨j, hj⟩ := chat_trace_events env t.text _ hmem2
        injection hj with hmsgs _
        exact ⟨bs, t, hA, hT, hmsgs⟩
    · rw [heq] at hmem
      rcases List.mem_append.mp hmem with hmem2 | hmem2
      · rcases List.mem_append.mp hmem2 with hmem3 | hmem3
        · obtain ⟨j, hj⟩ := retryAttempts_trace_mem (env.transcriptions bs)
            (Event.transcribeCall bs) 6 1 _ hmem3
          exact Event.noConfusion hj
        · obtain ⟨j, hj⟩ := chat_trace_events env t.text _ hmem3
          injection hj with hmsgs _
          exact ⟨bs, t, hA, hT, hmsgs⟩
      · obtain ⟨j, hj⟩ := retryAttempts_trace_mem
          (env.speech c0.message.content)
          (Event.speechCall c0.message.content) 6 1 _ hmem2
        exact Event.noConfusion hj
    · rw [heq] at hmem
      rcases List.mem_append.mp hmem with hmem2 | hmem2
      · rcases List.mem_append.mp hmem2 with hmem3 | hmem3
        · obtain ⟨j, hj⟩ := retryAttempts_trace_mem (env.transcriptions bs)
            (Event.transcribeCall bs) 6 1 _ hmem3
          exact Event.noConfusion hj
        · obtain ⟨j, hj⟩ := chat_trace_events env t.text _ hmem3
          injection hj with hmsgs _
          exact ⟨bs, t, hA, hT, hmsgs⟩
      · obtain ⟨j, hj⟩ := retryAttempts_trace_mem
          (env.speech c0.message.content)
          (Event.speechCall c0.message.content) 6 1 _ hmem2
        exact Event.noConfusion hj
  · intro env req fs h200
    rcases voice_agent_shape env req fs with
      ⟨hA, heq⟩ | ⟨bs, e, hA, hT, heq⟩ | ⟨bs, t, e, hA, hT, hC, heq⟩
      | ⟨bs, t, cc, hA, hT, hC, hcc, heq⟩
      | ⟨bs, t, cc, c0, cs, e, hA, hT, hC, hcc, hS, heq⟩
      | ⟨bs, t, cc, c0, cs, sb, hA, hT, hC, hcc, hS, heq⟩
    · rw [heq] at h200; simp at h200
    · rw [heq] at h200; simp at h200
    · rw [heq] at h200; simp at h200
    · rw [heq] at h200; simp at h200
    · rw [heq] at h200; simp at h200
    · refine ⟨t.text, cc, c0, cs, hC, hcc, ?_⟩
      rw [heq]
      rfl

/-- C7 witness: a concrete successful run returns the first choice's
content as text_response. -/
theorem chat_prompt_fixed_two_messages_first_choice_witness :
    ∃ t cc c0 cs,
      (generate_chat_response
          ⟨fun _ _ => Except.ok ⟨"hi"⟩, fun _ _ => Except.ok ⟨[⟨⟨"yes"⟩⟩]⟩,
           fun _ _ => Except.ok [1]⟩ t).1 = Except.ok cc
      ∧ cc.choices = c0 :: cs
      ∧ (voice_agent
          ⟨fun _ _ => Except.ok ⟨"hi"⟩, fun _ _ => Except.ok ⟨[⟨⟨"yes"⟩⟩]⟩,
           fun _ _ => Except.ok [1]⟩
          ⟨[("audio", [6])]⟩ ⟨0, []⟩).response.body.head?
          = some ("text_response", c0.message.content) :=
  chat_prompt_fixed_two_messages_first_choice.2 _ _ _ (by rfl)

/-- C8: failures are all-or-nothing. Every HTTP 500 response's body is
exactly the single error field; a text_response field appears only in a
200 response and then always together with an audio_base64 field; and when
the synthesis stage exhausts its budget after the reply text was already
produced, the response is the 500 error body — the reply text is never
returned standalone. -/
theorem all_or_nothing_error_responses (env : Env) (req : Request)
    (fs : FS) :
    ((voice_agent env req fs).response.status = 500 →
      ∃ m, (voice_agent env req fs).response.body = errorBody m)
  ∧ (∀ s, ("text_response", s) ∈ (voice_agent env req fs).response.body →
      (voice_agent env req fs).response.status = 200
      ∧ ∃ b2, ("audio_base64", b2) ∈ (voice_agent env req fs).response.body)
  ∧ (∀ (bs : List Nat) (t : Transcription) (cc : ChatCompletion)
       (c0 : ChatChoice) (cs : List ChatChoice) (e : Nat → Exc),
       findField req.files "audio" = some bs →
       (transcribe_audio env bs).1 = Except.ok t →
       (generate_chat_response env t.text).1 = Except.ok cc →
       cc.choices = c0 :: cs →
       (∀ k, 1 ≤ k → k ≤ 6 →
         env.speech c0.message.content k = Except.error (e k)) →
       (voice_agent env req fs).response
         = ⟨500, errorBody (pyStr (Exc.retryError (e 6)))⟩) := by
  have part3 : ∀ (bs : List Nat) (t : Transcription) (cc : ChatCompletion)
      (c0 : ChatChoice) (cs : List ChatChoice) (e : Nat → Exc),
      findField req.files "audio" = some bs →
      (transcribe_audio env bs).1 = Except.ok t →
      (generate_chat_response env t.text).1 = Except.ok cc →
      cc.choices = c0 :: cs →
      (∀ k, 1 ≤ k → k ≤ 6 →
        env.speech c0.message.content k = Except.error (e k)) →
      (voice_agent env req fs).response
        = ⟨500, errorBody (pyStr (Exc.retryError (e 6)))⟩ := by
    intro bs t cc c0 cs e hA hT hC hcc hsf
    have hS : (generate_speech env c0.message.content).1
        = Except.error (Exc.retryError (e 6)) := by
      unfold generate_speech retryCall
      rw [retryAttempts_all_fail (env.speech c0.message.content) _ e 6 1
        (by omega) (fun j h1 h2 => hsf j h1 (by omega))]
    rw [voice_agent_speech_error_eq env req fs bs t cc c0 cs _ hA hT hC
      hcc hS]
  rcases voice_agent_shape env req fs with
    ⟨hA, heq⟩ | ⟨bs, e, hA, hT, heq⟩ | ⟨bs, t, e, hA, hT, hC, heq⟩
    | ⟨bs, t, cc, hA, hT, hC, hcc, heq⟩
    | ⟨bs, t, cc, c0, cs, e, hA, hT, hC, hcc, hS, heq⟩
    | ⟨bs, t, cc, c0, cs, sb, hA, hT, hC, hcc, hS, heq⟩
  · refine ⟨?_, ?_, part3⟩
    · rw [heq]
      intro h
      simp at h
    · rw [heq]
      intro s hs
      simp [errorBody] at hs
  · refine ⟨?_, ?_, part3⟩
    · rw [heq]
      exact fun _ => ⟨pyStr e, rfl⟩
    · rw [heq]
      intro s hs
      simp [errorBody] at hs
  · refine ⟨?_, ?_, part3⟩
    · rw [heq]
      exact fun _ => ⟨pyStr e, rfl⟩
    · rw [heq]
      intro s hs
      simp [errorBody] at hs
  · refine ⟨?_, ?_, part3⟩
    · rw [heq]
      exact fun _ => ⟨"list index out of range", rfl⟩
    · rw [heq]
      intro s hs
      simp [errorBody] at hs
  · refine ⟨?_, ?_, part3⟩
    · rw [heq]
      exact fun _ => ⟨pyStr e, rfl⟩
    · rw [heq]
      intro s hs
      simp [errorBody] at hs
  · refine ⟨?_, ?_, part3⟩
    · rw [heq]
      intro h
      simp at h
    · rw [heq]
      exact fun s _ => ⟨rfl, b64encode sb, by simp⟩

/-- C8 witness: synthesis exhausting after a reply text was produced
yields the error-only 500 body. -/
theorem all_or_nothing_error_responses_witness :
    (voice_agent
        ⟨fun _ _ => Except.ok ⟨"hi"⟩, fun _ _ => Except.ok ⟨[⟨⟨"txt"⟩⟩]⟩,
         fun _ _ => Except.error (Exc.exc "Exception" "tts down")⟩
        ⟨[("audio", [2])]⟩ ⟨0, []⟩).response
      = ⟨500, errorBody (pyStr (Exc.retryError
          (Exc.exc "Exception" "tts down")))⟩ :=
  (all_or_nothing_error_responses _ _ _).2.2 [2] ⟨"hi"⟩ ⟨[⟨⟨"txt"⟩⟩]⟩
    ⟨⟨"txt"⟩⟩ [] (fun _ => Exc.exc "Exception" "tts down") (by rfl) (by rfl)
    (by rfl) (by rfl) (fun _ _ _ => rfl)
